import Mathlib

/-!
# Verification of the dbus-secret-service keyring store core (`src/service.rs`)

Shallow embedding of the Secret Service Gateway (`Service` in `src/service.rs`)
and the Collection Resolver (`mod util` in `src/service.rs`).

The secret-service daemon is modelled as an oracle (`SecretService`): a record
giving, for each daemon call the code can issue, the daemon's reply.  Each
gateway operation is embedded as a pure function from the mutex state
(`poisoned : Bool`), the oracle, and the operation's arguments to a pair of
the operation's outcome and the trace of mutating daemon requests it issued
(`List Effect`).  `Outcome` distinguishes returning `Ok`, returning `Err`,
and panicking, because the Rust code can do all three.

Attribute maps (`HashMap<String, String>` / `HashMap<&str, &str>` in the
source) are modelled as association lists with unique keys; `hmInsert`
replicates `HashMap::insert` (replace the entry if the key is present,
otherwise add it), and is order-faithful on the key-to-value mapping.
-/

set_option autoImplicit false

namespace SecretServiceStore

/-- A daemon-side (dbus) error, abstract: only its identity matters. -/
abbrev DbusError := Nat

/-- Path of an item, an opaque daemon-assigned locator. -/
abbrev ItemPath := String

/-- The `keyring_core::Error` values the embedded code constructs or passes on
(`NoEntry`, `NotSupportedByStore`, and the two translations of daemon
errors). -/
inductive KError where
  | noEntry : KError
  | decodeError : DbusError → KError
  | platformFailure : DbusError → KError
  | notSupportedByStore : String → KError
deriving DecidableEq, Repr

/-- Modelled from the spec: `src/errors.rs` is not in the sources; per the
spec's error-handling design, a daemon-reported decode/protocol anomaly
becomes a decode error. -/
def decode_error (e : DbusError) : KError := KError.decodeError e

/-- Modelled from the spec: `src/errors.rs` is not in the sources; per the
spec's error-handling design, a daemon-communication failure the core cannot
interpret becomes a platform failure. -/
def platform_failure (e : DbusError) : KError := KError.platformFailure e

instance instDecEqExcept {ε α : Type} [DecidableEq ε] [DecidableEq α] :
    DecidableEq (Except ε α) := fun a b =>
  match a, b with
  | .error e, .error f =>
    if h : e = f then isTrue (by rw [h])
    else isFalse (by intro hh; cases hh; exact h rfl)
  | .error _, .ok _ => isFalse (by intro hh; cases hh)
  | .ok _, .error _ => isFalse (by intro hh; cases hh)
  | .ok x, .ok y =>
    if h : x = y then isTrue (by rw [h])
    else isFalse (by intro hh; cases hh; exact h rfl)

/-- An item as it appears in a search result: we only ever use its path. -/
structure Item where
  path : ItemPath
deriving DecidableEq, Repr

/-- Result of `SecretService::search_items`: the matched items, split by
lock state. -/
structure SearchResult where
  unlocked : List Item
  locked : List Item
deriving DecidableEq, Repr

/-- A collection handle together with the daemon's replies to the calls the
embedded code can make on it.  `id` is the daemon-internal identity of the
collection, independent of its label. -/
structure Collection where
  id : Nat
  get_label : Except DbusError String
  is_locked : Except DbusError Bool
  unlock : Except DbusError Unit
  delete : Except DbusError Unit
  create_item_ok : Except DbusError Unit
deriving DecidableEq, Repr

/-- A mutating daemon request issued by a gateway operation; operations
return the trace of these so that claims about what was (not) written can be
stated. -/
inductive Effect where
  | unlockItems : List ItemPath → Effect
  | unlockCollection : Nat → Effect
  | createCollection : String → String → Effect
  | createItem : Nat → String → List (String × String) → List Nat → Bool → String → Effect
  | deleteCollection : Nat → Effect
  | setAttributes : ItemPath → List (String × String) → Effect
  | deleteItem : ItemPath → Effect
  | setSecret : ItemPath → List Nat → String → Effect
  | setLabel : ItemPath → String → Effect
  | ensureUnlocked : ItemPath → Effect
deriving DecidableEq, Repr

/-- The daemon oracle: for every call the code in `src/service.rs` can issue,
the daemon's reply.  Item-level calls are keyed by the item's path. -/
structure SecretService where
  search_items : List (String × String) → Except DbusError SearchResult
  unlock_all : List ItemPath → Except DbusError Unit
  get_default_collection : Except DbusError Collection
  get_all_collections : Except DbusError (List Collection)
  create_collection : String → String → Except DbusError Collection
  item_ensure_unlocked : ItemPath → Except DbusError Unit
  item_get_secret : ItemPath → Except DbusError (List Nat)
  item_set_secret : ItemPath → List Nat → String → Except DbusError Unit
  item_get_attributes : ItemPath → Except DbusError (List (String × String))
  item_set_attributes : ItemPath → List (String × String) → Except DbusError Unit
  item_delete : ItemPath → Except DbusError Unit
  item_get_label : ItemPath → Except DbusError String
  item_set_label : ItemPath → String → Except DbusError Unit

/-- Outcome of a gateway operation: the Rust code can return `Ok`, return
`Err`, or panic (via `expect` on the mutex guard). -/
inductive Outcome (α : Type) where
  | ok : α → Outcome α
  | err : KError → Outcome α
  | panicked : String → Outcome α
deriving DecidableEq, Repr

/-- Holds exactly when the outcome is a returned error value. -/
def Outcome.isErr {α : Type} : Outcome α → Bool
  | .err _ => true
  | _ => false

/-- Holds exactly when the operation panicked instead of returning. -/
def Outcome.isPanicked {α : Type} : Outcome α → Bool
  | .panicked _ => true
  | _ => false

/-- The message of the `expect` calls guarding the mutex in `src/service.rs`. -/
def mutexMsg : String := "Mutex failure in credential store: please report a bug"

/-! ## Attribute-map model (Rust `HashMap` as association list) -/

/-- First-match association-list lookup (the key-to-value mapping a Rust
`HashMap` denotes, given unique keys). -/
def alookup (k : String) : List (String × String) → Option String
  | [] => none
  | p :: ps => if p.1 = k then some p.2 else alookup k ps

/-- Insertion as Rust `HashMap::insert` behaves on the association-list
model: replace the entry if the key is present, otherwise append the new
pair. -/
def hmInsert : List (String × String) → String → String → List (String × String)
  | [], k, v => [(k, v)]
  | p :: ps, k, v => if p.1 = k then (k, v) :: ps else p :: hmInsert ps k v

/-- Insert every pair of `ps` into `m`, in order (the `for (k, v) in … {
updated.insert(k, v) }` loops of `update_attributes`). -/
def hmInsertAll (m : List (String × String)) (ps : List (String × String)) :
    List (String × String) :=
  ps.foldl (fun acc p => hmInsert acc p.1 p.2) m

/-- The merged map `update_attributes` builds: a fresh map, all existing
pairs inserted, then all new pairs inserted (so new values win). -/
def mergeAttributes (existing news : List (String × String)) :
    List (String × String) :=
  hmInsertAll (hmInsertAll [] existing) news

/-- Rust `char::to_ascii_lowercase`: map an ASCII uppercase letter to its
lowercase counterpart, leave every other character unchanged. -/
def asciiLower (c : Char) : Char :=
  if 'A' ≤ c ∧ c ≤ 'Z' then Char.ofNat (c.toNat + 32) else c

/-- Rust `str::to_ascii_lowercase`, character by character. -/
def toAsciiLowercase (s : String) : String :=
  ⟨s.data.map asciiLower⟩

/-! ## Collection Resolver (`mod util` in `src/service.rs`) -/

namespace util

/-- The predicate `get_collection` filters collections with:
`c.get_label().map(|l| l.eq(name)).unwrap_or(false)`. -/
def labelMatches (c : Collection) (name : String) : Bool :=
  match c.get_label with
  | .ok l => l = name
  | .error _ => false

/-- The `find` over all collections in `get_collection`. -/
def findByLabel (all : List Collection) (name : String) : Option Collection :=
  all.find? (fun c => labelMatches c name)

/-- The resolution half of `util::get_collection`: default redirection, or
first label match over all collections, `NoEntry` when none matches. -/
def resolve_step (ss : SecretService) (name : String) :
    Except KError Collection :=
  if name = "default" then
    match ss.get_default_collection with
    | .error e => .error (decode_error e)
    | .ok c => .ok c
  else
    match ss.get_all_collections with
    | .error e => .error (decode_error e)
    | .ok all =>
      match findByLabel all name with
      | some c => .ok c
      | none => .error KError.noEntry

/-- Embedding of `util::get_collection`: resolve the name, then normalize
the collection to unlocked before returning it. -/
def get_collection (ss : SecretService) (name : String) :
    Except KError Collection × List Effect :=
  match resolve_step ss name with
  | .error e => (.error e, [])
  | .ok c =>
    match c.is_locked with
    | .error e => (.error (decode_error e), [])
    | .ok true =>
      match c.unlock with
      | .error e => (.error (decode_error e), [Effect.unlockCollection c.id])
      | .ok _ => (.ok c, [Effect.unlockCollection c.id])
    | .ok false => (.ok c, [])

/-- Embedding of `util::create_collection`: a name that is case-insensitively
`default` yields the daemon's default collection; any other name is created
with an empty alias. -/
def create_collection (ss : SecretService) (name : String) :
    Except KError Collection × List Effect :=
  if toAsciiLowercase name = "default" then
    match ss.get_default_collection with
    | .error e => (.error (decode_error e), [])
    | .ok c => (.ok c, [])
  else
    match ss.create_collection name "" with
    | .error e => (.error (decode_error e), [Effect.createCollection name ""])
    | .ok c => (.ok c, [Effect.createCollection name ""])

end util

/-! ## Secret Service Gateway (`impl Service` in `src/service.rs`) -/

namespace Service

/-- Embedding of `Service::find_matching_items`: search the whole daemon,
batch-unlock the locked matches, return unlocked-then-locked paths. -/
def find_matching_items (poisoned : Bool) (ss : SecretService)
    (attributes : List (String × String)) :
    Outcome (List ItemPath) × List Effect :=
  if poisoned then (.panicked mutexMsg, []) else
  match ss.search_items attributes with
  | .error e => (.err (decode_error e), [])
  | .ok search =>
    if search.locked.isEmpty then
      (.ok ((search.unlocked ++ search.locked).map Item.path), [])
    else
      let lockedPaths := search.locked.map Item.path
      match ss.unlock_all lockedPaths with
      | .error e => (.err (decode_error e), [Effect.unlockItems lockedPaths])
      | .ok _ =>
        (.ok ((search.unlocked ++ search.locked).map Item.path),
         [Effect.unlockItems lockedPaths])

/-- Embedding of `Service::create_item`: resolve the collection, creating it
when resolution reports `NoEntry`; then create the item with `replace = true`
and the fixed octet-stream content type. -/
def create_item (poisoned : Bool) (ss : SecretService) (collection : String)
    (label : String) (attributes : List (String × String))
    (secret : List Nat) : Outcome Unit × List Effect :=
  if poisoned then (.panicked mutexMsg, []) else
  let resolved := util.get_collection ss collection
  let afterResolve : Except KError Collection × List Effect :=
    match resolved.1 with
    | .ok c => (.ok c, resolved.2)
    | .error KError.noEntry =>
      let created := util.create_collection ss collection
      (created.1, resolved.2 ++ created.2)
    | .error e => (.error e, resolved.2)
  match afterResolve.1 with
  | .error e => (.err e, afterResolve.2)
  | .ok c =>
    let eff := afterResolve.2 ++
      [Effect.createItem c.id label attributes secret true
        "application/octet-stream"]
    match c.create_item_ok with
    | .error e => (.err (platform_failure e), eff)
    | .ok _ => (.ok (), eff)

/-- Embedding of `Service::delete_collection`: refuse the literal name
`default`, otherwise resolve and delete. -/
def delete_collection (poisoned : Bool) (ss : SecretService)
    (collection : String) : Outcome Unit × List Effect :=
  if poisoned then (.panicked mutexMsg, []) else
  if collection = "default" then
    (.err (KError.notSupportedByStore "You cannot delete the default collection"), [])
  else
    match util.get_collection ss collection with
    | (.error e, eff) => (.err e, eff)
    | (.ok c, eff) =>
      match c.delete with
      | .error e => (.err (decode_error e), eff ++ [Effect.deleteCollection c.id])
      | .ok _ => (.ok (), eff ++ [Effect.deleteCollection c.id])

/-- Embedding of `Service::ensure_unlocked`. -/
def ensure_unlocked (poisoned : Bool) (ss : SecretService)
    (path : ItemPath) : Outcome Unit × List Effect :=
  if poisoned then (.panicked mutexMsg, []) else
  match ss.item_ensure_unlocked path with
  | .error e => (.err (decode_error e), [Effect.ensureUnlocked path])
  | .ok _ => (.ok (), [Effect.ensureUnlocked path])

/-- Embedding of `Service::set_secret` (content type fixed to
`text/plain`). -/
def set_secret (poisoned : Bool) (ss : SecretService) (path : ItemPath)
    (secret : List Nat) : Outcome Unit × List Effect :=
  if poisoned then (.panicked mutexMsg, []) else
  match ss.item_set_secret path secret "text/plain" with
  | .error e => (.err (decode_error e), [Effect.setSecret path secret "text/plain"])
  | .ok _ => (.ok (), [Effect.setSecret path secret "text/plain"])

/-- Embedding of `Service::get_secret`. -/
def get_secret (poisoned : Bool) (ss : SecretService) (path : ItemPath) :
    Outcome (List Nat) × List Effect :=
  if poisoned then (.panicked mutexMsg, []) else
  match ss.item_get_secret path with
  | .error e => (.err (decode_error e), [])
  | .ok s => (.ok s, [])

/-- Embedding of `Service::get_attributes`. -/
def get_attributes (poisoned : Bool) (ss : SecretService) (path : ItemPath) :
    Outcome (List (String × String)) × List Effect :=
  if poisoned then (.panicked mutexMsg, []) else
  match ss.item_get_attributes path with
  | .error e => (.err (decode_error e), [])
  | .ok a => (.ok a, [])

/-- Embedding of `Service::update_attributes`: read the existing attributes,
merge the new ones over them, write the merged map back in full. -/
def update_attributes (poisoned : Bool) (ss : SecretService) (path : ItemPath)
    (attributes : List (String × String)) : Outcome Unit × List Effect :=
  if poisoned then (.panicked mutexMsg, []) else
  match ss.item_get_attributes path with
  | .error e => (.err (decode_error e), [])
  | .ok existing =>
    let updated := mergeAttributes existing attributes
    match ss.item_set_attributes path updated with
    | .error e => (.err (decode_error e), [Effect.setAttributes path updated])
    | .ok _ => (.ok (), [Effect.setAttributes path updated])

/-- Embedding of `Service::delete` (delete an item by path). -/
def delete (poisoned : Bool) (ss : SecretService) (path : ItemPath) :
    Outcome Unit × List Effect :=
  if poisoned then (.panicked mutexMsg, []) else
  match ss.item_delete path with
  | .error e => (.err (decode_error e), [Effect.deleteItem path])
  | .ok _ => (.ok (), [Effect.deleteItem path])

/-- Embedding of `Service::get_label`. -/
def get_label (poisoned : Bool) (ss : SecretService) (path : ItemPath) :
    Outcome String × List Effect :=
  if poisoned then (.panicked mutexMsg, []) else
  match ss.item_get_label path with
  | .error e => (.err (decode_error e), [])
  | .ok l => (.ok l, [])

/-- Embedding of `Service::set_label`. -/
def set_label (poisoned : Bool) (ss : SecretService) (path : ItemPath)
    (label : String) : Outcome Unit × List Effect :=
  if poisoned then (.panicked mutexMsg, []) else
  match ss.item_set_label path label with
  | .error e => (.err (decode_error e), [Effect.setLabel path label])
  | .ok _ => (.ok (), [Effect.setLabel path label])

end Service

/-! ## A uniform view of the eleven gateway operations -/

/-- Result value of a gateway operation, unified over the return types of the
eleven operations. -/
inductive OpResult where
  | unit : OpResult
  | paths : List ItemPath → OpResult
  | bytes : List Nat → OpResult
  | attrs : List (String × String) → OpResult
  | str : String → OpResult
deriving DecidableEq, Repr

/-- Map a function over the value of a successful outcome. -/
def Outcome.map {α β : Type} (f : α → β) : Outcome α → Outcome β
  | .ok a => .ok (f a)
  | .err e => .err e
  | .panicked m => .panicked m

/-- One gateway operation of `impl Service`, with its arguments. -/
inductive GatewayOp where
  | findMatchingItems : List (String × String) → GatewayOp
  | createItem : String → String → List (String × String) → List Nat → GatewayOp
  | deleteCollection : String → GatewayOp
  | ensureUnlocked : ItemPath → GatewayOp
  | getSecret : ItemPath → GatewayOp
  | setSecret : ItemPath → List Nat → GatewayOp
  | getAttributes : ItemPath → GatewayOp
  | updateAttributes : ItemPath → List (String × String) → GatewayOp
  | delete : ItemPath → GatewayOp
  | getLabel : ItemPath → GatewayOp
  | setLabel : ItemPath → String → GatewayOp

/-- Dispatch a gateway operation to its embedding, with the result wrapped
into the uniform `OpResult`. -/
def runOp (poisoned : Bool) (ss : SecretService) :
    GatewayOp → Outcome OpResult × List Effect
  | .findMatchingItems attrs =>
    let r := Service.find_matching_items poisoned ss attrs
    (r.1.map OpResult.paths, r.2)
  | .createItem coll label attrs secret =>
    let r := Service.create_item poisoned ss coll label attrs secret
    (r.1.map (fun _ => OpResult.unit), r.2)
  | .deleteCollection coll =>
    let r := Service.delete_collection poisoned ss coll
    (r.1.map (fun _ => OpResult.unit), r.2)
  | .ensureUnlocked path =>
    let r := Service.ensure_unlocked poisoned ss path
    (r.1.map (fun _ => OpResult.unit), r.2)
  | .getSecret path =>
    let r := Service.get_secret poisoned ss path
    (r.1.map OpResult.bytes, r.2)
  | .setSecret path secret =>
    let r := Service.set_secret poisoned ss path secret
    (r.1.map (fun _ => OpResult.unit), r.2)
  | .getAttributes path =>
    let r := Service.get_attributes poisoned ss path
    (r.1.map OpResult.attrs, r.2)
  | .updateAttributes path attrs =>
    let r := Service.update_attributes poisoned ss path attrs
    (r.1.map (fun _ => OpResult.unit), r.2)
  | .delete path =>
    let r := Service.delete poisoned ss path
    (r.1.map (fun _ => OpResult.unit), r.2)
  | .getLabel path =>
    let r := Service.get_label poisoned ss path
    (r.1.map OpResult.str, r.2)
  | .setLabel path label =>
    let r := Service.set_label poisoned ss path label
    (r.1.map (fun _ => OpResult.unit), r.2)

/-- Holds exactly when the effect is a collection-creation request. -/
def Effect.isCreateCollection : Effect → Bool
  | .createCollection _ _ => true
  | _ => false

/-- Holds exactly when the effect is an item-creation request. -/
def Effect.isCreateItem : Effect → Bool
  | .createItem _ _ _ _ _ _ => true
  | _ => false

/-- Apply one mutating request to a store state viewed as the map from item
paths to stored attribute maps (only attribute writes touch that view). -/
def applyEffect (st : ItemPath → List (String × String)) :
    Effect → ItemPath → List (String × String)
  | Effect.setAttributes p a => fun q => if q = p then a else st q
  | _ => st

/-- Apply a trace of mutating requests, oldest first, to the
path-to-attributes view of the store. -/
def applyEffects (st : ItemPath → List (String × String))
    (effs : List Effect) : ItemPath → List (String × String) :=
  effs.foldl applyEffect st

/-! ## Concrete daemon oracles used to exercise the theorems -/

/-- A daemon default collection whose label is not `default`. -/
def collDefault : Collection :=
  { id := 0, get_label := .ok "Login", is_locked := .ok false,
    unlock := .ok (), delete := .ok (), create_item_ok := .ok () }

/-- A locked collection labeled `work`. -/
def collWork : Collection :=
  { id := 1, get_label := .ok "work", is_locked := .ok true,
    unlock := .ok (), delete := .ok (), create_item_ok := .ok () }

/-- A collection whose label cannot be read. -/
def collBad : Collection :=
  { id := 2, get_label := .error 7, is_locked := .ok false,
    unlock := .ok (), delete := .ok (), create_item_ok := .ok () }

/-- The collection the concrete daemon hands back for creation requests. -/
def collTeam : Collection :=
  { id := 5, get_label := .ok "team", is_locked := .ok false,
    unlock := .ok (), delete := .ok (), create_item_ok := .ok () }

/-- A concrete daemon: one unreadable-label collection, one locked `work`
collection, a default collection labeled `Login`, one unlocked and one locked
search match, and an item whose attributes are `{a: 1, b: 2}`. -/
def ssEx : SecretService :=
  { search_items := fun _ => .ok ⟨[⟨"u1"⟩], [⟨"l1"⟩]⟩,
    unlock_all := fun _ => .ok (),
    get_default_collection := .ok collDefault,
    get_all_collections := .ok [collBad, collWork],
    create_collection := fun _ _ => .ok collTeam,
    item_ensure_unlocked := fun _ => .ok (),
    item_get_secret := fun _ => .ok [1, 2],
    item_set_secret := fun _ _ _ => .ok (),
    item_get_attributes := fun _ => .ok [("a", "1"), ("b", "2")],
    item_set_attributes := fun _ _ => .ok (),
    item_delete := fun _ => .ok (),
    item_get_label := fun _ => .ok "lbl",
    item_set_label := fun _ _ => .ok () }

/-- The concrete daemon with no collections at all (so every non-default
resolution fails not-found). -/
def ssDef : SecretService := { ssEx with get_all_collections := .ok [] }

/-- The concrete daemon whose searches succeed with zero matches. -/
def ssEmptySearch : SecretService :=
  { ssEx with search_items := fun _ => .ok ⟨[], []⟩ }

/-- The concrete daemon where enumerating collections and reading item
attributes fail with daemon error 3. -/
def ssErr : SecretService :=
  { ssEx with
    get_all_collections := .error 3,
    item_get_attributes := fun _ => .error 3 }

/-! ## Lemmas on the attribute-map model -/

/-- The overlay mapping the spec describes for `update_attributes`: a key
present in the new map takes the new value, otherwise the existing value. -/
def overlay (news existing : List (String × String)) (k : String) :
    Option String :=
  match alookup k news with
  | some v => some v
  | none => alookup k existing

theorem alookup_of_not_mem {k : String} {ps : List (String × String)}
    (h : k ∉ ps.map Prod.fst) : alookup k ps = none := by
  induction ps with
  | nil => rfl
  | cons p ps ih =>
    simp only [List.map_cons, List.mem_cons, not_or] at h
    simp only [alookup, if_neg (fun hh : p.1 = k => h.1 hh.symm)]
    exact ih h.2

theorem alookup_hmInsert (m : List (String × String)) (a v k : String) :
    alookup k (hmInsert m a v) = if a = k then some v else alookup k m := by
  induction m with
  | nil => simp [hmInsert, alookup]
  | cons p ps ih =>
    by_cases h : p.1 = a
    · simp only [hmInsert, if_pos h, alookup]
      by_cases hk : a = k
      · simp [hk]
      · simp [alookup, hk, h]
    · simp only [hmInsert, if_neg h, alookup, ih]
      by_cases hpk : p.1 = k
      · have hak : a ≠ k := fun hak => h (by rw [hpk, hak])
        simp [hpk, hak]
      · by_cases hak : a = k <;> simp [hpk, hak]

theorem alookup_hmInsertAll (k : String) (ps : List (String × String))
    (hnd : (ps.map Prod.fst).Nodup) (m : List (String × String)) :
    alookup k (hmInsertAll m ps) =
      match alookup k ps with
      | some v => some v
      | none => alookup k m := by
  induction ps generalizing m with
  | nil => simp [hmInsertAll, alookup]
  | cons p ps ih =>
    simp only [List.map_cons, List.nodup_cons] at hnd
    have hstep : hmInsertAll m (p :: ps) = hmInsertAll (hmInsert m p.1 p.2) ps := rfl
    rw [hstep, ih hnd.2]
    by_cases hk : p.1 = k
    · have hnone : alookup k ps = none := alookup_of_not_mem (hk ▸ hnd.1)
      rw [hnone, alookup_hmInsert]
      simp [alookup, hk]
    · rw [alookup_hmInsert, if_neg hk]
      have hcons : alookup k (p :: ps) = alookup k ps := by
        simp [alookup, hk]
      rw [hcons]

/-- On maps with unique keys, the merged map built by `update_attributes`
denotes exactly the overlay of the new map over the existing one. -/
theorem alookup_mergeAttributes (existing news : List (String × String))
    (hnd1 : (existing.map Prod.fst).Nodup) (hnd2 : (news.map Prod.fst).Nodup)
    (k : String) :
    alookup k (mergeAttributes existing news) = overlay news existing k := by
  unfold mergeAttributes overlay
  rw [alookup_hmInsertAll k news hnd2, alookup_hmInsertAll k existing hnd1]
  cases alookup k news <;> cases alookup k existing <;> simp [alookup]

/-- Collection resolution never issues creation requests: its only effect is
an unlock. -/
theorem get_collection_no_create (ss : SecretService) (name : String) :
    ((util.get_collection ss name).2.all
      (fun x => !x.isCreateCollection && !x.isCreateItem)) = true := by
  unfold util.get_collection
  split
  · rfl
  · split
    · rfl
    · split <;> rfl
    · rfl

/-! ## The claims -/

/-- C1 (counterexample): with the lock poisoned, a gateway operation does not
return an error result at all — it panics (via `expect` on the mutex guard),
so the claim that it "fails cleanly by returning a fatal-internal-error
result to the caller rather than proceeding (or crashing)" is false. -/
theorem poisoned_lock_no_error_result :
    (runOp true ssEx (GatewayOp.getSecret "p")).1 = Outcome.panicked mutexMsg ∧
    (runOp true ssEx (GatewayOp.getSecret "p")).1.isErr = false :=
  ⟨rfl, rfl⟩

/-- C1 (amended): with the lock poisoned, every one of the eleven gateway
operations panics with the bug-report message and issues no daemon request,
rather than proceeding; it does not return a result to the caller. -/
theorem poisoned_lock_panics (ss : SecretService) (op : GatewayOp) :
    runOp true ss op = (Outcome.panicked mutexMsg, []) := by
  cases op <;> rfl

/-- C2: `update_attributes` reads the existing attributes, overlays the new
map over them (new values win on shared keys, existing-only keys are kept,
new-only keys are added), and writes the merged map back in full, in one
attribute-write request. -/
theorem update_attributes_merges (ss : SecretService) (path : ItemPath)
    (existing news : List (String × String))
    (hget : ss.item_get_attributes path = .ok existing)
    (hset : ss.item_set_attributes path (mergeAttributes existing news) = .ok ())
    (hnd1 : (existing.map Prod.fst).Nodup)
    (hnd2 : (news.map Prod.fst).Nodup) :
    Service.update_attributes false ss path news =
      (.ok (), [Effect.setAttributes path (mergeAttributes existing news)]) ∧
    ∀ k, alookup k (mergeAttributes existing news) = overlay news existing k := by
  constructor
  · simp [Service.update_attributes, hget, hset]
  · exact fun k => alookup_mergeAttributes existing news hnd1 hnd2 k

/-- C2 (witness): on the spec's example, existing `{a:1, b:2}` updated with
`{b:3, c:4}` stores exactly `{a:1, b:3, c:4}`. -/
theorem update_attributes_merges_witness :
    Service.update_attributes false ssEx "item1" [("b", "3"), ("c", "4")] =
      (.ok (), [Effect.setAttributes "item1"
        [("a", "1"), ("b", "3"), ("c", "4")]]) :=
  (update_attributes_merges ssEx "item1" [("a", "1"), ("b", "2")]
    [("b", "3"), ("c", "4")] rfl rfl (by decide) (by decide)).1

/-- C3: `delete_collection` rejects exactly the case-sensitive name
`default` with a "not supported" error regardless of daemon state; for any
other name the collection is resolved (a not-found resolution error is
propagated) and, when found, deleted. -/
theorem delete_collection_default_rejected (ss : SecretService) (name : String) :
    (name = "default" →
      Service.delete_collection false ss name =
        (.err (KError.notSupportedByStore
          "You cannot delete the default collection"), []))
    ∧ (name ≠ "default" → ∀ e eff, util.get_collection ss name = (.error e, eff) →
        Service.delete_collection false ss name = (.err e, eff))
    ∧ (name ≠ "default" → ∀ c eff, util.get_collection ss name = (.ok c, eff) →
        c.delete = .ok () →
        Service.delete_collection false ss name =
          (.ok (), eff ++ [Effect.deleteCollection c.id])) := by
  refine ⟨?_, ?_, ?_⟩
  · intro h
    subst h
    simp [Service.delete_collection]
  · intro h e eff hg
    simp [Service.delete_collection, h, hg]
  · intro h c eff hg hd
    simp [Service.delete_collection, h, hg, hd]

/-- C3 (witness): concretely, deleting `default` fails "not supported",
deleting an unknown name fails not-found, and deleting `work` resolves the
collection (unlocking it) and deletes it. -/
theorem delete_collection_default_rejected_witness :
    Service.delete_collection false ssEx "default" =
      (.err (KError.notSupportedByStore
        "You cannot delete the default collection"), []) ∧
    Service.delete_collection false ssEx "nosuch" = (.err KError.noEntry, []) ∧
    Service.delete_collection false ssEx "work" =
      (.ok (), [Effect.unlockCollection 1, Effect.deleteCollection 1]) :=
  ⟨(delete_collection_default_rejected ssEx "default").1 rfl,
   (delete_collection_default_rejected ssEx "nosuch").2.1 (by decide)
     KError.noEntry [] rfl,
   (delete_collection_default_rejected ssEx "work").2.2 (by decide)
     collWork [Effect.unlockCollection 1] rfl rfl⟩

/-- C4: a successful search batch-unlocks all locked matches in one request
and returns the unlocked matches followed by the previously-locked matches,
each converted to its path. -/
theorem find_matching_items_unlocks_and_orders (ss : SecretService)
    (attrs : List (String × String)) (sr : SearchResult)
    (hsearch : ss.search_items attrs = .ok sr)
    (hunlock : sr.locked.isEmpty = false →
      ss.unlock_all (sr.locked.map Item.path) = .ok ()) :
    Service.find_matching_items false ss attrs =
      (.ok ((sr.unlocked ++ sr.locked).map Item.path),
        if sr.locked.isEmpty then []
        else [Effect.unlockItems (sr.locked.map Item.path)]) := by
  by_cases h : sr.locked.isEmpty
  · simp [Service.find_matching_items, hsearch, h]
  · have h' : sr.locked.isEmpty = false := by simpa using h
    simp [Service.find_matching_items, hsearch, h', hunlock h']

/-- C4 (witness): a concrete search with one unlocked and one locked match
issues one batch unlock of the locked match and returns the unlocked path
first. -/
theorem find_matching_items_unlocks_and_orders_witness :
    Service.find_matching_items false ssEx [("service", "s")] =
      (.ok ["u1", "l1"], [Effect.unlockItems ["l1"]]) :=
  find_matching_items_unlocks_and_orders ssEx [("service", "s")]
    ⟨[⟨"u1"⟩], [⟨"l1"⟩]⟩ rfl (fun _ => rfl)

/-- C5: resolution redirects `default` to the daemon's default collection
regardless of its label; any other name picks the first enumerated collection
whose label equals the name, failing not-found when none matches; and a
resolved collection reporting a locked state is unlocked before being
returned. -/
theorem get_collection_resolution (ss : SecretService) (name : String) :
    (name = "default" → ∀ c, ss.get_default_collection = .ok c →
      util.resolve_step ss name = .ok c)
    ∧ (name ≠ "default" → ∀ all, ss.get_all_collections = .ok all →
        util.resolve_step ss name =
          (match util.findByLabel all name with
           | some c => .ok c
           | none => .error KError.noEntry))
    ∧ (∀ c, util.resolve_step ss name = .ok c → c.is_locked = .ok false →
        util.get_collection ss name = (.ok c, []))
    ∧ (∀ c, util.resolve_step ss name = .ok c → c.is_locked = .ok true →
        c.unlock = .ok () →
        util.get_collection ss name = (.ok c, [Effect.unlockCollection c.id])) := by
  refine ⟨?_, ?_, ?_, ?_⟩
  · intro h c hc
    subst h
    simp [util.resolve_step, hc]
  · intro h all hall
    simp [util.resolve_step, h, hall]
  · intro c hr hl
    simp [util.get_collection, hr, hl]
  · intro c hr hl hu
    simp [util.get_collection, hr, hl, hu]

/-- C5 (witness): on the concrete daemon, `default` resolves to the default
collection even though its label is `Login`; `work` resolves to the first
label match among all collections and is unlocked before being returned. -/
theorem get_collection_resolution_witness :
    util.resolve_step ssEx "default" = .ok collDefault ∧
    util.resolve_step ssEx "work" =
      (match util.findByLabel [collBad, collWork] "work" with
       | some c => .ok c
       | none => .error KError.noEntry) ∧
    util.get_collection ssEx "default" = (.ok collDefault, []) ∧
    util.get_collection ssEx "work" =
      (.ok collWork, [Effect.unlockCollection 1]) :=
  ⟨(get_collection_resolution ssEx "default").1 rfl collDefault rfl,
   (get_collection_resolution ssEx "work").2.1 (by decide) [collBad, collWork] rfl,
   (get_collection_resolution ssEx "default").2.2.1 collDefault rfl rfl,
   (get_collection_resolution ssEx "work").2.2.2 collWork rfl rfl rfl⟩

/-- C6 (counterexample): with a daemon holding no collections, creating an
item under the name `DEFAULT` fails resolution with not-found, yet the
operation succeeds by fetching the daemon's pre-existing default collection
and issues no collection-creation request — so "the collection is created
and item creation proceeds in the newly created collection" is false as
stated. -/
theorem create_item_default_case_no_creation :
    (util.get_collection ssDef "DEFAULT").1 = .error KError.noEntry ∧
    (Service.create_item false ssDef "DEFAULT" "lbl" [] []).1 = .ok () ∧
    (Service.create_item false ssDef "DEFAULT" "lbl" [] []).2.all
      (fun x => !x.isCreateCollection) = true :=
  ⟨rfl, rfl, rfl⟩

/-- C6 (amended): when resolution fails with not-found, the collection is
obtained from `util::create_collection` — created anew for names not
case-insensitively equal to `default`, the daemon's default collection
otherwise — and the item is created in it; any other resolution error is
propagated with no collection- or item-creation request issued; not-found is
the only locally recovered error. -/
theorem create_item_recovery (ss : SecretService) (coll label : String)
    (attrs : List (String × String)) (secret : List Nat) :
    (∀ e effr, util.get_collection ss coll = (.error e, effr) →
      e ≠ KError.noEntry →
      Service.create_item false ss coll label attrs secret = (.err e, effr) ∧
      effr.all (fun x => !x.isCreateCollection && !x.isCreateItem) = true)
    ∧ (∀ effr c effc,
        util.get_collection ss coll = (.error KError.noEntry, effr) →
        util.create_collection ss coll = (.ok c, effc) →
        c.create_item_ok = .ok () →
        Service.create_item false ss coll label attrs secret =
          (.ok (), (effr ++ effc) ++
            [Effect.createItem c.id label attrs secret true
              "application/octet-stream"]))
    ∧ (∀ c effr, util.get_collection ss coll = (.ok c, effr) →
        c.create_item_ok = .ok () →
        Service.create_item false ss coll label attrs secret =
          (.ok (), effr ++
            [Effect.createItem c.id label attrs secret true
              "application/octet-stream"])) := by
  refine ⟨?_, ?_, ?_⟩
  · intro e effr hg hne
    constructor
    · cases e with
      | noEntry => exact absurd rfl hne
      | decodeError d => simp [Service.create_item, hg]
      | platformFailure d => simp [Service.create_item, hg]
      | notSupportedByStore m => simp [Service.create_item, hg]
    · have h := get_collection_no_create ss coll
      rw [hg] at h
      exact h
  · intro effr c effc hg hc hci
    simp [Service.create_item, hg, hc, hci]
  · intro c effr hg hci
    simp [Service.create_item, hg, hci]

/-- C6 (amended, witness): concretely, a decode error during resolution is
propagated with no creation request; a not-found on name `team` triggers
creating collection `team` and the item in it; a found collection receives
the item directly. -/
theorem create_item_recovery_witness :
    Service.create_item false ssErr "work" "lbl" [] [] =
      (.err (KError.decodeError 3), []) ∧
    Service.create_item false ssDef "team" "lbl" [] [] =
      (.ok (), [Effect.createCollection "team" "",
        Effect.createItem 5 "lbl" [] [] true "application/octet-stream"]) ∧
    Service.create_item false ssEx "work" "lbl" [] [] =
      (.ok (), [Effect.unlockCollection 1,
        Effect.createItem 1 "lbl" [] [] true "application/octet-stream"]) :=
  ⟨((create_item_recovery ssErr "work" "lbl" [] []).1 (KError.decodeError 3) []
      rfl (by decide)).1,
   (create_item_recovery ssDef "team" "lbl" [] []).2.1 [] collTeam
     [Effect.createCollection "team" ""] rfl rfl rfl,
   (create_item_recovery ssEx "work" "lbl" [] []).2.2 collWork
     [Effect.unlockCollection 1] rfl rfl⟩

/-- C7: creation with a name case-insensitively equal to `default` returns
the daemon's default collection and issues no creation request; any other
name asks the daemon to create a collection labeled exactly that name with
an empty alias and no other metadata. -/
theorem create_collection_default_redirect (ss : SecretService) (name : String) :
    (toAsciiLowercase name = "default" → ∀ c, ss.get_default_collection = .ok c →
      util.create_collection ss name = (.ok c, []))
    ∧ (toAsciiLowercase name ≠ "default" → ∀ c, ss.create_collection name "" = .ok c →
        util.create_collection ss name =
          (.ok c, [Effect.createCollection name ""])) := by
  constructor
  · intro h c hc
    simp [util.create_collection, h, hc]
  · intro h c hc
    simp [util.create_collection, h, hc]

/-- C7 (witness): concretely, `Default` yields the daemon default collection
with no creation request, and `team` issues exactly one creation request
labeled `team` with an empty alias. -/
theorem create_collection_default_redirect_witness :
    util.create_collection ssEx "Default" = (.ok collDefault, []) ∧
    util.create_collection ssEx "team" =
      (.ok collTeam, [Effect.createCollection "team" ""]) :=
  ⟨(create_collection_default_redirect ssEx "Default").1 (by decide)
     collDefault rfl,
   (create_collection_default_redirect ssEx "team").2 (by decide)
     collTeam rfl⟩

/-- C8: when the daemon search succeeds with zero matches, the operation
returns success with the empty sequence (never an error) and issues no
request beyond the search. -/
theorem find_matching_items_empty_ok (ss : SecretService)
    (attrs : List (String × String))
    (h : ss.search_items attrs = .ok ⟨[], []⟩) :
    Service.find_matching_items false ss attrs = (.ok [], []) := by
  simp [Service.find_matching_items, h]

/-- C8 (witness): the concrete zero-match daemon returns an empty successful
result. -/
theorem find_matching_items_empty_ok_witness :
    Service.find_matching_items false ssEmptySearch [("service", "s")] =
      (.ok [], []) :=
  find_matching_items_empty_ok ssEmptySearch [("service", "s")] rfl

/-- C9: a collection whose label cannot be read is skipped as non-matching
during non-default resolution rather than failing it, and resolution fails
not-found exactly when no enumerated collection has a readable label equal
to the requested name. -/
theorem unreadable_label_skipped (ss : SecretService) (name : String)
    (e : DbusError) (cbad : Collection) (rest : List Collection)
    (hname : name ≠ "default") (hbad : cbad.get_label = .error e)
    (hall : ss.get_all_collections = .ok (cbad :: rest)) :
    util.findByLabel (cbad :: rest) name = util.findByLabel rest name ∧
    (util.resolve_step ss name = .error KError.noEntry ↔
      ∀ c ∈ cbad :: rest, util.labelMatches c name = false) := by
  have hm : util.labelMatches cbad name = false := by
    simp [util.labelMatches, hbad]
  have hskip : util.findByLabel (cbad :: rest) name =
      util.findByLabel rest name := by
    unfold util.findByLabel
    rw [List.find?_cons_of_neg _ (by simp [hm])]
  refine ⟨hskip, ?_⟩
  have hstep : util.resolve_step ss name =
      (match util.findByLabel (cbad :: rest) name with
       | some c => Except.ok c
       | none => Except.error KError.noEntry) := by
    simp [util.resolve_step, hname, hall]
  rw [hstep]
  cases hf : util.findByLabel (cbad :: rest) name with
  | some c =>
    constructor
    · intro h
      exact absurd h (by simp)
    · intro hallf
      have h1 := List.find?_some hf
      have h2 := List.mem_of_find?_eq_some hf
      rw [hallf c h2] at h1
      cases h1
  | none =>
    constructor
    · intro _ c hc
      have h3 := List.find?_eq_none.mp hf c hc
      simpa using h3
    · intro _
      rfl

/-- C9 (witness): concretely, the unreadable-label collection in front of
`work` is skipped and resolution succeeds, so the not-found
characterization holds with both sides false. -/
theorem unreadable_label_skipped_witness :
    util.findByLabel [collBad, collWork] "work" =
      util.findByLabel [collWork] "work" ∧
    (util.resolve_step ssEx "work" = .error KError.noEntry ↔
      ∀ c ∈ [collBad, collWork], util.labelMatches c "work" = false) :=
  unreadable_label_skipped ssEx "work" 7 collBad [collWork] (by decide) rfl rfl

/-- C10: when reading the item's existing attributes fails, the update
returns that error having issued no mutating request, so the stored
attributes of every item are left unchanged. -/
theorem update_attributes_read_fail_no_write (ss : SecretService)
    (path : ItemPath) (news : List (String × String)) (e : DbusError)
    (hget : ss.item_get_attributes path = .error e) :
    Service.update_attributes false ss path news =
      (.err (decode_error e), []) ∧
    ∀ st, applyEffects st (Service.update_attributes false ss path news).2 = st := by
  have h : Service.update_attributes false ss path news =
      (.err (decode_error e), []) := by
    simp [Service.update_attributes, hget]
  refine ⟨h, fun st => ?_⟩
  rw [h]
  rfl

/-- C10 (witness): on the concrete daemon whose attribute read fails, the
update surfaces the decode error and the attribute view of the store is
untouched. -/
theorem update_attributes_read_fail_no_write_witness :
    Service.update_attributes false ssErr "p" [("a", "1")] =
      (.err (decode_error 3), []) ∧
    applyEffects (fun _ => [("x", "y")])
      (Service.update_attributes false ssErr "p" [("a", "1")]).2 =
      (fun _ => [("x", "y")]) :=
  ⟨(update_attributes_read_fail_no_write ssErr "p" [("a", "1")] 3 rfl).1,
   (update_attributes_read_fail_no_write ssErr "p" [("a", "1")] 3 rfl).2
     (fun _ => [("x", "y")])⟩

end SecretServiceStore
